import Mathlib

/-!
Verification development for the SMS-to-Transaction extraction and
deduplication pipeline of the Cursor finance tracker.

The embedded code is:
  - `src/lib/sms/parser.ts` (`extractExpenseFromText`, `tryRules`),
  - `src/lib/sms/processor/transaction-creator.ts`
    (`createTransactionFromSms`, `generateDeterministicTransactionId`),
  - `src/lib/sms/processor/duplicate-checker.ts` (`isTransactionDuplicate`),
  - `src/lib/sms/scanner.ts` (`scanSms`, `loadSmsFromDevice`).

Modelling conventions:
  - JavaScript strings are Lean `String`s; `toLowerCase` is per-`Char`
    lowercasing, `includes` is a contiguous-substring scan.
  - JavaScript `RegExp` is modelled by an executable backtracking engine over
    the AST below.  The supported grammar covers the constructs the rules use:
    literals, escapes (\d \D \w \W \s \S and escaped punctuation), character
    classes with ranges and negation, `.` (not matching a line break),
    grouping `(...)` / `(?:...)`, alternation `|`, the quantifiers `*` `+` `?`
    with lazy variants, and the anchors `^` `$`.  Unsupported constructs
    (lookaround, backreferences, word boundaries, `\u`/`\x` escapes) make
    compilation fail, exactly like a `SyntaxError` from `new RegExp`, which
    every use site of the source catches and treats as a non-match.
  - JavaScript numbers are `ℚ`; `parseFloat` is modelled without the
    `Infinity` literal (no SMS rule captures it) and `NaN` is `Option.none`.
  - `Date` values are carried as epoch milliseconds (`Int`);
    `new Date(ms).toISOString()` is an injective rendering, so the epoch value
    itself stands for the ISO string.
  - `uuidv4()` draws sixteen bytes from an explicit random stream
    (`List Nat`), making the randomness of the source visible as data.
  - The external stores (rule store, transaction store, device bridge,
    transaction enricher) are parameters, as the spec declares them external.
-/

namespace Cursor

/-! ### JS string primitives -/

/-- `String.prototype.toLowerCase`, per-character lowercasing. -/
def jsToLower (s : String) : String := String.mk (s.toList.map Char.toLower)

/-- Whitespace recognised by `String.prototype.trim`. -/
def jsWhitespace (c : Char) : Bool :=
  c = ' ' || c = '\t' || c = '\n' || c = '\r' || c = '\x0b' || c = '\x0c'

/-- `String.prototype.trim`. -/
def jsTrim (s : String) : String :=
  String.mk (((s.toList.dropWhile jsWhitespace).reverse.dropWhile jsWhitespace).reverse)

/-- Does `needle` occur as a contiguous sublist of `hay`? (`includes`). -/
def containsSub (hay needle : List Char) : Bool :=
  match hay with
  | [] => needle.isEmpty
  | _ :: t => needle.isPrefixOf hay || containsSub t needle

/-- `hay.toLowerCase().includes(needle.toLowerCase())`. -/
def containsCI (hay needle : String) : Bool :=
  containsSub (jsToLower hay).toList (jsToLower needle).toList

/-- `s.slice(a, b)` for `0 ≤ a ≤ b` (character positions). -/
def sliceStr (s : String) (a b : Nat) : String :=
  String.mk ((s.toList.drop a).take (b - a))

/-- `s.slice(a)`. -/
def sliceFrom (s : String) (a : Nat) : String := String.mk (s.toList.drop a)

/-- Position of the last occurrence of `c` in `s` (`lastIndexOf`), if any. -/
def lastIdxOf (c : Char) (s : String) : Option Nat :=
  ((s.toList.enum.filter (fun p => p.2 = c)).map (fun p => p.1)).getLast?

/-! ### A model of JavaScript `RegExp` -/

/-- One member of a character class. -/
inductive ClassItem where
  | single (c : Char)
  | range (lo hi : Char)
  | digit
  | word
  | space
deriving DecidableEq

/-- Regular-expression AST.  `plus`/`?` are desugared by the pattern
compiler; `grp` records the 1-based capturing-group number. -/
inductive RE where
  | eps
  | lit (c : Char)
  | dot
  | cls (neg : Bool) (items : List ClassItem)
  | cat (a b : RE)
  | alt (a b : RE)
  | star (lazy : Bool) (r : RE)
  | grp (idx : Nat) (r : RE)
  | bos
  | eos
deriving DecidableEq

/-- Structural size, used to pick a sufficient backtracking fuel. -/
def RE.size : RE → Nat
  | .cat a b => a.size + b.size + 1
  | .alt a b => a.size + b.size + 1
  | .star _ r => r.size + 1
  | .grp _ r => r.size + 1
  | _ => 1

/-- Character comparison under the `i` flag. -/
def chEq (ci : Bool) (a b : Char) : Bool :=
  if ci then a.toLower = b.toLower else a = b

def isWordChar (c : Char) : Bool := c.isAlphanum || c = '_'

def isSpaceChar (c : Char) : Bool :=
  jsWhitespace c || c = ' '

def classItemMatches (ci : Bool) : ClassItem → Char → Bool
  | .single c, x => chEq ci c x
  | .range lo hi, x =>
      (lo ≤ x && x ≤ hi)
        || (ci && ((lo ≤ x.toLower && x.toLower ≤ hi) || (lo ≤ x.toUpper && x.toUpper ≤ hi)))
  | .digit, x => x.isDigit
  | .word, x => isWordChar x
  | .space, x => isSpaceChar x

/-- Capture store: group number ↦ captured text (last capture wins, as in JS). -/
abbrev Caps := List (Nat × String)

def setCap (n : Nat) (s : String) (caps : Caps) : Caps :=
  (n, s) :: caps.filter (fun p => p.1 ≠ n)

/-- Backtracking matcher.  Returns the possible `(remaining, captures)`
outcomes of matching `re` against a prefix of `cs`, in JS preference order
(greedy alternatives first unless a quantifier is lazy, left alternative
first).  `fullLen` is the length of the whole subject (for `^`); `fuel`
bounds the call depth and is chosen large enough by `reFuel`. -/
def runRE (ci : Bool) (fullLen : Nat) : Nat → RE → List Char → Caps → List (List Char × Caps)
  | 0, _, _, _ => []
  | _ + 1, .eps, cs, caps => [(cs, caps)]
  | _ + 1, .bos, cs, caps => if cs.length = fullLen then [(cs, caps)] else []
  | _ + 1, .eos, cs, caps => if cs.isEmpty then [(cs, caps)] else []
  | _ + 1, .lit c, cs, caps =>
      match cs with
      | [] => []
      | x :: rest => if chEq ci c x then [(rest, caps)] else []
  | _ + 1, .dot, cs, caps =>
      match cs with
      | [] => []
      | x :: rest => if x = '\n' || x = '\r' then [] else [(rest, caps)]
  | _ + 1, .cls neg items, cs, caps =>
      match cs with
      | [] => []
      | x :: rest => if (items.any (fun it => classItemMatches ci it x)) != neg then [(rest, caps)] else []
  | fuel + 1, .cat a b, cs, caps =>
      (runRE ci fullLen fuel a cs caps).flatMap
        (fun pr => runRE ci fullLen fuel b pr.1 pr.2)
  | fuel + 1, .alt a b, cs, caps =>
      runRE ci fullLen fuel a cs caps ++ runRE ci fullLen fuel b cs caps
  | fuel + 1, .grp n r, cs, caps =>
      (runRE ci fullLen fuel r cs caps).map
        (fun pr => (pr.1, setCap n (String.mk (cs.take (cs.length - pr.1.length))) pr.2))
  | fuel + 1, .star lazy r, cs, caps =>
      let step := (runRE ci fullLen fuel r cs caps).flatMap
        (fun pr =>
          if pr.1.length < cs.length then runRE ci fullLen fuel (.star lazy r) pr.1 pr.2 else [])
      if lazy then (cs, caps) :: step else step ++ [(cs, caps)]

/-- Fuel sufficient for `runRE` on a subject of length `n`. -/
def reFuel (re : RE) (n : Nat) : Nat := (re.size + 2) * (n + 2)

/-- Leftmost-match search: try each start position in order, take the first
position where the matcher succeeds, and its preferred outcome. -/
def execCore (ci : Bool) (re : RE) (fullLen fuel : Nat) : List Char → Option (String × Caps)
  | [] =>
      match runRE ci fullLen fuel re [] [] with
      | pr :: _ => some (String.mk [], pr.2)
      | [] => none
  | c :: t =>
      match runRE ci fullLen fuel re (c :: t) [] with
      | pr :: _ => some (String.mk ((c :: t).take ((c :: t).length - pr.1.length)), pr.2)
      | [] => execCore ci re fullLen fuel t

/-- A compiled `RegExp`: the AST plus whether the `i` flag is set. -/
structure JsRegex where
  ci : Bool
  re : RE
deriving DecidableEq

/-- Leftmost match of `r` in `s`: matched text and captures. -/
def JsRegex.search (r : JsRegex) (s : String) : Option (String × Caps) :=
  execCore r.ci r.re s.toList.length (reFuel r.re s.toList.length) s.toList

/-- `RegExp.prototype.test`. -/
def JsRegex.test (r : JsRegex) (s : String) : Bool := (r.search s).isSome

/-- `s.match(r)?.[1]`: the first capturing group of the leftmost match.
`none` when there is no match or the group did not participate. -/
def JsRegex.group1 (r : JsRegex) (s : String) : Option String :=
  (r.search s).bind (fun pr => pr.2.lookup 1)

/-! ### The pattern compiler (`new RegExp`)

`none` plays the role of a thrown `SyntaxError`. -/

/-- Escapes usable inside a character class. -/
def classEsc (c : Char) : Option ClassItem :=
  if c = 'd' then some .digit
  else if c = 'w' then some .word
  else if c = 's' then some .space
  else if c = 'n' then some (.single '\n')
  else if c = 't' then some (.single '\t')
  else if c = 'r' then some (.single '\r')
  else if c = 'f' then some (.single '\x0c')
  else if c = 'v' then some (.single '\x0b')
  else if c.isAlphanum then none
  else some (.single c)

/-- Parse the body of a `[...]` class up to the closing `]`. -/
def parseClassItems : Nat → List Char → Option (List ClassItem × List Char)
  | 0, _ => none
  | _ + 1, [] => none
  | _ + 1, ']' :: t => some ([], t)
  | f + 1, '\\' :: e :: t =>
      (classEsc e).bind (fun item =>
        (parseClassItems f t).map (fun pr => (item :: pr.1, pr.2)))
  | _ + 1, ['\\'] => none
  | f + 1, a :: rest =>
      match rest with
      | '-' :: b :: t =>
          if b = ']' then
            -- a trailing '-' is a literal member
            some ([.single a, .single '-'], t)
          else if b = '\\' then
            -- no range whose upper bound is an escape: all three are literals
            (parseClassItems f ('\\' :: t)).map (fun pr => (.single a :: .single '-' :: pr.1, pr.2))
          else if a ≤ b then
            (parseClassItems f t).map (fun pr => (.range a b :: pr.1, pr.2))
          else none
      | _ => (parseClassItems f rest).map (fun pr => (.single a :: pr.1, pr.2))

/-- Escapes usable at top level; `none` means unsupported (treated as a
compile error, see the header note). -/
def atomEsc (c : Char) : Option RE :=
  if c = 'd' then some (.cls false [.digit])
  else if c = 'D' then some (.cls true [.digit])
  else if c = 'w' then some (.cls false [.word])
  else if c = 'W' then some (.cls true [.word])
  else if c = 's' then some (.cls false [.space])
  else if c = 'S' then some (.cls true [.space])
  else if c = 'n' then some (.lit '\n')
  else if c = 't' then some (.lit '\t')
  else if c = 'r' then some (.lit '\r')
  else if c = 'f' then some (.lit '\x0c')
  else if c = 'v' then some (.lit '\x0b')
  else if c = '0' then some (.lit '\x00')
  else if c.isAlphanum then none
  else some (.lit c)

/-- The four levels of the pattern grammar, folded into one function so the
recursion is structural on the fuel. -/
inductive PMode where
  | alternation
  | sequence
  | atomQ
  | atom

/-- Recursive-descent pattern parser.  `PMode.alternation` parses
`seq ('|' seq)*`; `PMode.sequence` a (possibly empty) run of quantified
atoms; `PMode.atomQ` one atom with an optional quantifier (`*` `+` `?`,
each with an optional lazy `?`); `PMode.atom` a single atom.  `g` is the
running count of capturing groups already opened. -/
def parseRE : Nat → PMode → Nat → List Char → Option (RE × List Char × Nat)
  | 0, _, _, _ => none
  | f + 1, .alternation, g, cs =>
      (match parseRE f .sequence g cs with
        | none => none
        | some (r, rest, g1) =>
            match rest with
            | '|' :: t =>
                (match parseRE f .alternation g1 t with
                  | some (r2, rest2, g2) => some (.alt r r2, rest2, g2)
                  | none => none)
            | _ => some (r, rest, g1))
  | f + 1, .sequence, g, cs =>
      (match cs with
        | [] => some (.eps, [], g)
        | ')' :: _ => some (.eps, cs, g)
        | '|' :: _ => some (.eps, cs, g)
        | _ =>
            match parseRE f .atomQ g cs with
            | none => none
            | some (r1, rest, g1) =>
                match parseRE f .sequence g1 rest with
                | some (r2, rest2, g2) => some (.cat r1 r2, rest2, g2)
                | none => none)
  | f + 1, .atomQ, g, cs =>
      (match parseRE f .atom g cs with
        | none => none
        | some (r, rest, g1) =>
            match rest with
            | '*' :: '?' :: t => some (.star true r, t, g1)
            | '*' :: t => some (.star false r, t, g1)
            | '+' :: '?' :: t => some (.cat r (.star true r), t, g1)
            | '+' :: t => some (.cat r (.star false r), t, g1)
            | '?' :: '?' :: t => some (.alt .eps r, t, g1)
            | '?' :: t => some (.alt r .eps, t, g1)
            | _ => some (r, rest, g1))
  | f + 1, .atom, g, cs =>
      (match cs with
        | [] => none
        | '(' :: '?' :: ':' :: t =>
            (match parseRE f .alternation g t with
              | some (r, ')' :: rest, g1) => some (r, rest, g1)
              | _ => none)
        | '(' :: '?' :: _ => none  -- lookaround and named groups: unsupported
        | '(' :: t =>
            (match parseRE f .alternation (g + 1) t with
              | some (r, ')' :: rest, g1) => some (.grp (g + 1) r, rest, g1)
              | _ => none)
        | '[' :: '^' :: t =>
            (parseClassItems f t).map (fun pr => (.cls true pr.1, pr.2, g))
        | '[' :: t =>
            (parseClassItems f t).map (fun pr => (.cls false pr.1, pr.2, g))
        | '\\' :: e :: t => (atomEsc e).map (fun r => (r, t, g))
        | ['\\'] => none
        | '.' :: t => some (.dot, t, g)
        | '^' :: t => some (.bos, t, g)
        | '$' :: t => some (.eos, t, g)
        | '*' :: _ => none
        | '+' :: _ => none
        | '?' :: _ => none
        | c :: t => some (.lit c, t, g))

/-- Compile a pattern string; `none` is a `SyntaxError`. -/
def compilePattern (pat : String) : Option RE :=
  let cs := pat.toList
  match parseRE (4 * cs.length + 8) .alternation 0 cs with
  | some (r, [], _) => some r
  | _ => none

/-- Flag-string validation as done by the `RegExp` constructor. -/
def validFlags : List Char → Bool
  | [] => true
  | c :: t => (c ∈ ['d', 'g', 'i', 'm', 's', 'u', 'v', 'y']) && !(t.contains c) && validFlags t

/-- `new RegExp(pat, flags)`: `none` is a thrown `SyntaxError`. -/
def newRegExp (pat flags : String) : Option JsRegex :=
  if validFlags flags.toList then
    (compilePattern pat).map (fun r => { ci := flags.toList.contains 'i', re := r })
  else none

/-! ### `parseFloat` and friends -/

def digitsNat (ds : List Char) : Nat :=
  ds.foldl (fun n c => n * 10 + (c.toNat - '0'.toNat)) 0

/-- `parseFloat`, on `ℚ`: longest numeric prefix after optional whitespace
and sign, with optional fraction and exponent; `none` is `NaN`.  The
`Infinity` literal is not modelled (see the header note).  The value
`±digits.digits × 10^exp` is assembled from integer arithmetic into a single
`mkRat`. -/
def parseFloatQ (s : String) : Option ℚ :=
  let cs := s.toList.dropWhile jsWhitespace
  let neg := cs.head? = some '-'
  let cs1 := if cs.head? = some '-' || cs.head? = some '+' then cs.drop 1 else cs
  let intPart := cs1.takeWhile Char.isDigit
  let cs2 := cs1.dropWhile Char.isDigit
  let fracPart := if cs2.head? = some '.' then (cs2.drop 1).takeWhile Char.isDigit else []
  let cs3 := if cs2.head? = some '.' then (cs2.drop 1).dropWhile Char.isDigit else cs2
  if intPart.isEmpty && fracPart.isEmpty then none
  else
    let mant : Int := (digitsNat (intPart ++ fracPart) : Int)
    -- exponent part, only taken when at least one digit follows `e`/`E`
    let expPart : Int :=
      match cs3 with
      | e :: t =>
          if e = 'e' || e = 'E' then
            let negE := t.head? = some '-'
            let t1 := if t.head? = some '-' || t.head? = some '+' then t.drop 1 else t
            let eds := t1.takeWhile Char.isDigit
            if eds.isEmpty then 0
            else if negE then -(digitsNat eds : Int) else (digitsNat eds : Int)
          else 0
      | [] => 0
    let d : Int := expPart - fracPart.length
    let signedMant : Int := if neg then -mant else mant
    some (if 0 ≤ d then mkRat (signedMant * 10 ^ d.toNat) 1 else mkRat signedMant (10 ^ (-d).toNat))

/-- `s.replace(/,/g, '')`. -/
def stripCommas (s : String) : String := String.mk (s.toList.filter (fun c => c ≠ ','))

/-! ### Data model (`src/types/sms-parser.ts`) -/

inductive TxType where
  | expense
  | income
deriving DecidableEq

/-- A TypeScript `string | string[]` field. -/
inductive StrOrList where
  | str (s : String)
  | list (l : List String)
deriving DecidableEq

/-- `Array.isArray(x) ? x : [x]`, the normalization the parser applies. -/
def StrOrList.norm : StrOrList → List String
  | .str s => [s]
  | .list l => l

/-- JS truthiness of an optional `string | string[]` field: `undefined` and
`''` are falsy, every array (even empty) is truthy. -/
def jsTruthy : Option StrOrList → Bool
  | none => false
  | some (.str s) => s ≠ ""
  | some (.list _) => true

/-- One entry of `rule.merchantExtractions`. -/
structure MerchantExtraction where
  startText : Option String := none
  endText : Option String := none
  startIndex : Option Nat := none
deriving DecidableEq

/-- The fields of `SmsParserRule` the extraction engine reads. -/
structure SmsParserRule where
  name : String
  enabled : Bool
  paymentBank : String
  priority : Int
  transactionType : TxType
  senderMatch : StrOrList
  amountRegex : StrOrList
  merchantExtractions : Option (List MerchantExtraction) := none
  merchantCondition : Option StrOrList := none
  merchantCommonPatterns : Option StrOrList := none
  skipCondition : Option StrOrList := none
  successCount : Option Nat := none
  lastError : Option String := none
deriving DecidableEq

/-- The source iterates `rule.merchantCommonPatterns` with `for...of` without
normalizing, so a plain string is iterated character by character. -/
def merchantPatternList : StrOrList → List String
  | .str s => s.toList.map (fun c => String.mk [c])
  | .list l => l

/-! ### The extraction engine (`src/lib/sms/parser.ts`) -/

/-- One skip-condition pattern against the message body: blank patterns are
ignored; a case-insensitive substring match skips; otherwise a
`/pattern/flags`-shaped pattern is tried as a regex (default flags `i`),
with a compile error ignored. -/
def skipPatternMatches (text pattern : String) : Bool :=
  if pattern = "" || jsTrim pattern = "" then false
  else if containsCI text pattern then true
  else
    match pattern.toList.head? == some '/', lastIdxOf '/' pattern with
    | true, some i =>
        if 1 < i then
          let regexStr := sliceStr pattern 1 i
          let flags := sliceFrom pattern (i + 1)
          match newRegExp regexStr (if flags = "" then "i" else flags) with
          | some r => r.test text
          | none => false
        else false
    | _, _ => false

/-- Rule-level skip check: any of the rule's skip patterns matches.  Guarded
by the JS truthiness of the field, then normalized to a list. -/
def ruleSkipMatches (text : String) (rule : SmsParserRule) : Bool :=
  match rule.skipCondition with
  | none => false
  | some sc => jsTruthy (some sc) && sc.norm.any (skipPatternMatches text)

/-- The group-wide skip pass at the top of `tryRules`: it ranges over every
rule of the group, including disabled ones. -/
def globalSkip (text : String) (rules : List SmsParserRule) : Bool :=
  rules.any (ruleSkipMatches text)

/-- One sender pattern: blank patterns never match; a case-insensitive
substring check first, then the pattern as a regex with flag `i`; a compile
error is caught and treated as no match. -/
def senderPatternMatches (sender pattern : String) : Bool :=
  if pattern = "" || jsTrim pattern = "" then false
  else if containsCI sender pattern then true
  else
    match newRegExp pattern "i" with
    | some r => r.test sender
    | none => false

def senderMatches (sender : String) (rule : SmsParserRule) : Bool :=
  rule.senderMatch.norm.any (senderPatternMatches sender)

/-- One amount pattern: compile with flag `i` (errors caught), take the first
capturing group of the leftmost match when it is a nonempty string, strip
commas, `parseFloat`, absolute value; `none` when any step fails (the
in-loop `isNaN` check). -/
def amountFromPattern (text pattern : String) : Option ℚ :=
  match newRegExp pattern "i" with
  | none => none
  | some r =>
      match r.group1 text with
      | none => none
      | some cap =>
          if cap = "" then none
          else
            match parseFloatQ (stripCommas cap) with
            | none => none
            | some v => some |v|

/-- The amount loop: the first pattern that produces a non-`NaN` value wins. -/
def extractAmount (text : String) (patterns : List String) : Option ℚ :=
  patterns.findSome? (amountFromPattern text)

/-- Index just past the `n`-th (1-based) occurrence of `sub` in `text`. -/
def occurrenceEnd (text sub : List Char) : Nat → Nat → Option Nat
  | _, 0 => none
  | pos, n + 1 =>
      match text with
      | [] => if sub.isEmpty && n = 0 then some pos else none
      | _ :: t =>
          if sub.isPrefixOf text then
            if n = 0 then some (pos + sub.length)
            else occurrenceEnd t sub (pos + 1) n
          else occurrenceEnd t sub (pos + 1) (n + 1)

/-- First index at which `sub` occurs in `text`. -/
def firstIdxOf (text sub : String) : Option Nat :=
  (occurrenceEnd text.toList sub.toList 0 1).map (fun i => i - sub.toList.length)

/-- Modelled from the spec: `tryMerchantExtractions` of
`src/lib/merchant-extract.ts` is not under `src/`; this follows §4.1 of the
spec.  One attempt: when `startText` is given, take the text after its
`startIndex`-th (1-based, default 1) occurrence and, when `endText` is given,
cut at the first later occurrence of `endText` (attempt fails when a given
marker is absent); with only `startText` the run extends to the end of the
message (the spec leaves the truncation policy to the implementer); with only
`endText` take everything before it.  The result is trimmed and must be
nonempty, otherwise the attempt fails. -/
def merchantAttempt (text : String) (a : MerchantExtraction) : Option String :=
  match a.startText with
  | some st =>
      (match occurrenceEnd text.toList st.toList 0 (a.startIndex.getD 1) with
        | none => none
        | some i =>
            let tail := sliceFrom text i
            let piece :=
              match a.endText with
              | some et => (firstIdxOf tail et).map (fun j => sliceStr tail 0 j)
              | none => some tail
            match piece with
            | none => none
            | some p => if jsTrim p = "" then none else some (jsTrim p))
  | none =>
      match a.endText with
      | some et =>
          (match firstIdxOf text et with
            | none => none
            | some j => if jsTrim (sliceStr text 0 j) = "" then none else some (jsTrim (sliceStr text 0 j)))
      | none => none

/-- Modelled from the spec: the attempt list is tried in order, first
success wins. -/
def tryMerchantExtractions (text : String) (attempts : List MerchantExtraction) : Option String :=
  attempts.findSome? (merchantAttempt text)

/-- A `merchantCondition` pattern: first capturing group of the leftmost
match, when nonempty, trimmed (the trim may legitimately produce `""`). -/
def merchCondCapture (text pattern : String) : Option String :=
  match newRegExp pattern "i" with
  | none => none
  | some r =>
      match r.group1 text with
      | none => none
      | some cap => if cap = "" then none else some (jsTrim cap)

/-- The merchant-name phase of a successful rule: `merchantExtractions`
first, then the `merchantCondition` fallback while the name is still the
sentinel, then the `merchantCommonPatterns` cleanup pass. -/
def extractMerchant (text : String) (rule : SmsParserRule) : String :=
  let m0 :=
    match rule.merchantExtractions with
    | some l =>
        if 0 < l.length then
          match tryMerchantExtractions text l with
          | some s => if s = "" then "Unknown Merchant" else s
          | none => "Unknown Merchant"
        else "Unknown Merchant"
    | none => "Unknown Merchant"
  let m1 :=
    if m0 = "" || m0 = "Unknown Merchant" then
      match rule.merchantCondition with
      | some mc =>
          if jsTruthy (some mc) then
            match mc.norm.findSome? (merchCondCapture text) with
            | some s => s
            | none => m0
          else m0
      | none => m0
    else m0
  if m1 ≠ "" && jsTruthy rule.merchantCommonPatterns then
    match rule.merchantCommonPatterns with
    | some ps =>
        (match (merchantPatternList ps).findSome? (merchCondCapture m1) with
          | some s => s
          | none => m1)
    | none => m1
  else m1

/-- Result record of `tryRules` / `extractExpenseFromText`. -/
structure ParseResult where
  amount : Option ℚ
  merchantName : String
  usedRule : Option SmsParserRule := none
deriving DecidableEq

def noMatchResult : ParseResult := { amount := none, merchantName := "Unknown Merchant" }

/-- Does this rule produce an amount for this message?  Mirrors the
short-circuits of the per-rule body of `tryRules`: enabled, sender match,
no rule-level skip, and a truthy extracted amount (`!amount` rejects both
`null`/`NaN` and `0`). -/
def ruleAttemptSucceeds (text sender : String) (r : SmsParserRule) : Bool :=
  r.enabled && senderMatches sender r && !ruleSkipMatches text r &&
    (match extractAmount text r.amountRegex.norm with
      | some a => a ≠ 0
      | none => false)

/-- The per-rule loop of `tryRules` (after the group-wide skip pass).  The
`successCount`/`lastError` write-back through `updateSmsParserRule` is a
fire-and-forget external effect and carries no information into the result,
so it is not part of the state here. -/
def tryRulesGo (text sender : String) : List SmsParserRule → ParseResult
  | [] => noMatchResult
  | rule :: rest =>
      if !rule.enabled then tryRulesGo text sender rest
      else if !senderMatches sender rule then tryRulesGo text sender rest
      else if ruleSkipMatches text rule then tryRulesGo text sender rest
      else
        match extractAmount text rule.amountRegex.norm with
        | none => tryRulesGo text sender rest
        | some a =>
            if a = 0 then tryRulesGo text sender rest
            else { amount := some a, merchantName := extractMerchant text rule, usedRule := some rule }

/-- `tryRules` of `src/lib/sms/parser.ts`. -/
def tryRules (text sender : String) (rules : List SmsParserRule) : ParseResult :=
  if globalSkip text rules then noMatchResult
  else tryRulesGo text sender rules

/-- JS truthiness of `result.amount` (`null`, `NaN` and `0` are falsy). -/
def amountTruthy : Option ℚ → Bool
  | none => false
  | some a => a ≠ 0

/-- Result of `extractExpenseFromText`, with the transaction type. -/
structure ExtractResult where
  amount : Option ℚ
  merchantName : String
  usedRule : Option SmsParserRule := none
  transactionType : Option TxType := none
deriving DecidableEq

/-- `extractExpenseFromText` of `src/lib/sms/parser.ts`: partition by
transaction type, try the expense group, then the income group. -/
def extractExpenseFromText (text sender : String) (rules : List SmsParserRule) : ExtractResult :=
  let expenseRules := rules.filter (fun r => r.transactionType = TxType.expense)
  let incomeRules := rules.filter (fun r => r.transactionType = TxType.income)
  let er := tryRules text sender expenseRules
  if amountTruthy er.amount then
    { amount := er.amount, merchantName := er.merchantName, usedRule := er.usedRule,
      transactionType := some .expense }
  else
    let ir := tryRules text sender incomeRules
    if amountTruthy ir.amount then
      { amount := ir.amount, merchantName := ir.merchantName, usedRule := ir.usedRule,
        transactionType := some .income }
    else { amount := none, merchantName := "Unknown Merchant" }

/-! ### Identity generation
(`src/lib/sms/processor/transaction-creator.ts`) -/

def hexDigit (n : Nat) : Char :=
  if n < 10 then Char.ofNat ('0'.toNat + n) else Char.ofNat ('a'.toNat + (n - 10))

def byteHex (n : Nat) : List Char := [hexDigit ((n % 256) / 16), hexDigit (n % 16)]

/-- `uuid.v4()`: sixteen bytes from the random stream, with the version and
variant bits forced, rendered in the 8-4-4-4-12 form.  The stream is the
explicit image of the generator's randomness; two calls consume disjoint
segments of it. -/
def uuidv4 (rng : List Nat) : String × List Nat :=
  let bs := ((rng ++ List.replicate 16 0).take 16).map (fun b => b % 256)
  let b := fun i => bs.getD i 0
  let hx := fun i => byteHex (b i)
  let chars :=
    hx 0 ++ hx 1 ++ hx 2 ++ hx 3 ++ ['-'] ++ hx 4 ++ hx 5 ++ ['-'] ++
    byteHex (64 + b 6 % 16) ++ hx 7 ++ ['-'] ++
    byteHex (128 + b 8 % 64) ++ hx 9 ++ ['-'] ++
    hx 10 ++ hx 11 ++ hx 12 ++ hx 13 ++ hx 14 ++ hx 15
  (String.mk chars, rng.drop 16)

/-- Decimal rendering of the epoch value standing for the ISO date string. -/
def renderDate (d : Int) : String := toString d

/-- Rendering of a JS number into the template string. -/
def renderAmount (a : ℚ) : String := toString a

/-- `generateDeterministicTransactionId` of
`src/lib/sms/processor/transaction-creator.ts` — the version the scan
pipeline imports through `processor/index.ts`.  The source assembles the
deterministic `idString` and then returns `uuidv4()` anyway
("For now, using random UUID. TODO: Implement UUID v5"), so the result
depends only on the random stream, never on the fields. -/
def generateDeterministicTransactionId (date : Int) (amount : ℚ) (merchantName : String)
    (sender body : Option String) (rng : List Nat) : String × List Nat :=
  let _idString :=
    renderDate date ++ "_" ++ renderAmount amount ++ "_" ++ merchantName ++ "_" ++
      sender.getD "" ++ "_" ++ body.getD ""
  uuidv4 rng

/-- The SHA-256-based `generateDeterministicTransactionId` of the legacy
`src/lib/sms-transaction-processor.ts` hashes
`date|amount|merchantName|sender|body`; this is its deterministic input
string.  The digest itself is a fixed injective-by-assumption function of
this string, so determinism of the legacy version is visible already at the
level of the hashed payload: it is a pure function of the five fields. -/
def legacyIdPayload (date : Int) (amount : ℚ) (merchantName : String)
    (sender body : Option String) : String :=
  renderDate date ++ "|" ++ renderAmount amount ++ "|" ++ merchantName ++ "|" ++
    sender.getD "" ++ "|" ++ body.getD ""

/-! ### Transactions and the duplicate checker -/

/-- `ProcessedSmsMessage` of `src/lib/sms/processor/types.ts`. -/
structure ProcessedSmsMessage where
  body : String
  date : Int
  amount : ℚ
  merchantName : String
  sender : Option String := none
deriving DecidableEq

/-- The persisted transaction record, restricted to the fields the pipeline
writes (`transaction-creator.ts`). -/
structure Transaction where
  id : String
  amount : ℚ
  date : Int
  merchantName : String
  category : String
  notes : Option String
  paymentMethod : String
  source : String
  type : TxType
deriving DecidableEq

/-- Result of `getPreviousTransactionData` (`transaction-enricher.ts`, an
external collaborator): optional category and notes learned from earlier
transactions of the same merchant. -/
structure EnrichedData where
  category : Option String := none
  notes : Option String := none

/-- `createTransactionFromSms` of `transaction-creator.ts`.  The enricher is
passed in as the external collaborator it is. -/
def createTransactionFromSms (enrich : String → EnrichedData)
    (smsData : ProcessedSmsMessage) (bankName : String) (type : TxType)
    (rng : List Nat) : Transaction × List Nat :=
  let pr := generateDeterministicTransactionId smsData.date smsData.amount
    smsData.merchantName smsData.sender (some smsData.body) rng
  let e := enrich smsData.merchantName
  ({ id := pr.1, amount := smsData.amount, date := smsData.date,
     merchantName := smsData.merchantName,
     category := e.category.getD "other", notes := e.notes,
     paymentMethod := bankName, source := "sms", type := type }, pr.2)

/-- `isTransactionDuplicate` of
`src/lib/sms/processor/duplicate-checker.ts`: with an id provided it is an
exact-id scan of the transaction store; otherwise a fresh id is generated
and scanned for. -/
def isTransactionDuplicate (store : List Transaction)
    (smsData : ProcessedSmsMessage) (id? : Option String)
    (rng : List Nat) : Bool × List Nat :=
  match id? with
  | some i => (store.any (fun t => t.id = i), rng)
  | none =>
      let pr := generateDeterministicTransactionId smsData.date smsData.amount
        smsData.merchantName smsData.sender (some smsData.body) rng
      (store.any (fun t => t.id = pr.1), pr.2)

/-! ### The scanner (`src/lib/sms/scanner.ts`) -/

/-- An `SmsMessage` as the scanner sees it. -/
structure SmsMessage where
  address : String
  body : String
  date : Int
deriving DecidableEq

/-- One raw entry of the parsed bridge payload; `address`/`body` may be
absent (`msg.address || ''`). -/
structure BridgeMsg where
  address : Option String := none
  body : Option String := none
  date : Int
deriving DecidableEq

def bridgeToSms (m : BridgeMsg) : SmsMessage :=
  { address := m.address.getD "", body := m.body.getD "", date := m.date }

def msPerDay : Int := 86400000

/-- The window `loadSmsFromDevice` queries: from thirty days before `now` to
`now`.  The source computes the lower bound with `setDate(getDate() - 30)`;
the calendar arithmetic is modelled as a fixed thirty days. -/
def loadWindow (now : Int) : Int × Int := (now - 30 * msPerDay, now)

structure LoadResult where
  messages : List SmsMessage
  /-- The `(fromDate, toDate)` pair passed to `window.Android.readSMS`, when
  the bridge was called at all. -/
  queried : Option (Int × Int) := none
deriving DecidableEq

/-- `loadSmsFromDevice` of `src/lib/sms/scanner.ts`.  The bridge is the
external `window.Android.readSMS`; its payload arrives already through
`JSON.parse`, with `none` covering both a parse failure (the `catch`) and a
non-array value — each yields `[]`.  Note the window is derived from the
clock alone and the parsed array is cut to `limit` before mapping. -/
def loadSmsFromDevice (androidAvailable : Bool)
    (bridge : Int → Int → Option (List BridgeMsg)) (now : Int)
    (limit : Nat := 100) : LoadResult :=
  if !androidAvailable then { messages := [] }
  else
    let w := loadWindow now
    match bridge w.1 w.2 with
    | none => { messages := [], queried := some w }
    | some arr => { messages := (arr.take limit).map bridgeToSms, queried := some w }

/-- The state threaded through the per-message loop of `scanSms`. -/
structure LoopState where
  transactions : List Transaction := []
  processedCount : Nat := 0
  skippedCount : Nat := 0
  rng : List Nat := []
deriving DecidableEq

/-- The body of the per-message `try` block of `scanSms`: extract, build the
transaction, check for a duplicate.  `none` in the result means the message
was skipped (no amount/type, or a duplicate); `Except.error` stands for a
thrown exception. -/
def perMessageStep (enrich : String → EnrichedData) (store : List Transaction)
    (rules : List SmsParserRule) (message : SmsMessage)
    (rng : List Nat) : Except String (Option Transaction × List Nat) :=
  let result := extractExpenseFromText message.body message.address rules
  if !amountTruthy result.amount || result.transactionType.isNone then .ok (none, rng)
  else
    match result.amount with
    | none => .ok (none, rng)
    | some a =>
        let smsData : ProcessedSmsMessage :=
          { body := message.body, date := message.date, amount := a,
            merchantName := result.merchantName, sender := some message.address }
        let bank :=
          match result.usedRule with
          | some r => if r.paymentBank = "" then "Other Bank" else r.paymentBank
          | none => "Other Bank"
        let pr := createTransactionFromSms enrich smsData bank
          (result.transactionType.getD .expense) rng
        let dup := isTransactionDuplicate store smsData (some pr.1.id) pr.2
        if dup.1 then .ok (none, dup.2) else .ok (some pr.1, dup.2)

/-- The `for (const message of messages) { try { ... } catch { skipped++ } }`
loop of `scanSms`, generic in the per-message body: an exception is absorbed
into the skip count and iteration continues. -/
def scanLoop (step : SmsMessage → List Nat → Except String (Option Transaction × List Nat)) :
    List SmsMessage → LoopState → LoopState
  | [], st => st
  | m :: ms, st =>
      match step m st.rng with
      | .error _ => scanLoop step ms { st with skippedCount := st.skippedCount + 1 }
      | .ok (none, rng1) =>
          scanLoop step ms { st with skippedCount := st.skippedCount + 1, rng := rng1 }
      | .ok (some t, rng1) =>
          scanLoop step ms
            { st with transactions := st.transactions ++ [t],
                      processedCount := st.processedCount + 1, rng := rng1 }

inductive ScanFailure where
  | noMessages
  | noRules
deriving DecidableEq

/-- Observable outcome of one `scanSms` run; `queried` records the bridge
call (the progress-toast strings themselves are UI). -/
structure ScanOutcome where
  transactions : List Transaction
  processedCount : Nat
  skippedCount : Nat
  failure : Option ScanFailure
  queried : Option (Int × Int)
deriving DecidableEq

/-- `scanSms` of `src/lib/sms/scanner.ts`.  Its `fromDate`/`toDate`
parameters appear exactly as in the source signature and, as in the source
body, are never read.  The rule store, transaction store, enricher and
bridge are the external collaborators, passed as data.  Messages are loaded
first; the rules check is `rules.length === 0` on the full list. -/
def scanSms (fromDate toDate : Option Int) (androidAvailable : Bool)
    (bridge : Int → Int → Option (List BridgeMsg)) (now : Int)
    (rules : List SmsParserRule) (store : List Transaction)
    (enrich : String → EnrichedData) (rng : List Nat) : ScanOutcome :=
  let lr := loadSmsFromDevice androidAvailable bridge now
  if lr.messages.isEmpty then
    { transactions := [], processedCount := 0, skippedCount := 0,
      failure := some .noMessages, queried := lr.queried }
  else if rules.isEmpty then
    { transactions := [], processedCount := 0, skippedCount := 0,
      failure := some .noRules, queried := lr.queried }
  else
    let fin := scanLoop (perMessageStep enrich store rules) lr.messages { rng := rng }
    { transactions := fin.transactions, processedCount := fin.processedCount,
      skippedCount := fin.skippedCount, failure := none, queried := lr.queried }

/-! ### Structural lemmas about the extraction engine -/

/-- Unfolding of the per-rule loop: a rule either wins with its extracted
amount and merchant, or the loop moves on. -/
theorem tryRulesGo_cons (text sender : String) (r : SmsParserRule) (rest : List SmsParserRule) :
    tryRulesGo text sender (r :: rest) =
      if ruleAttemptSucceeds text sender r then
        { amount := extractAmount text r.amountRegex.norm,
          merchantName := extractMerchant text r, usedRule := some r }
      else tryRulesGo text sender rest := by
  by_cases hE : r.enabled = true
  · by_cases hS : senderMatches sender r = true
    · by_cases hK : ruleSkipMatches text r = true
      · simp [tryRulesGo, ruleAttemptSucceeds, hE, hS, hK]
      · replace hK : ruleSkipMatches text r = false := by simpa using hK
        rcases hA : extractAmount text r.amountRegex.norm with _ | a
        · simp [tryRulesGo, ruleAttemptSucceeds, hE, hS, hK, hA]
        · by_cases h0 : a = 0
          · simp [tryRulesGo, ruleAttemptSucceeds, hE, hS, hK, hA, h0]
          · simp [tryRulesGo, ruleAttemptSucceeds, hE, hS, hK, hA, h0]
    · replace hS : senderMatches sender r = false := by simpa using hS
      simp [tryRulesGo, ruleAttemptSucceeds, hS]
  · replace hE : r.enabled = false := by simpa using hE
    simp [tryRulesGo, ruleAttemptSucceeds, hE]

/-- The winning rule is always drawn from the rule list. -/
theorem tryRulesGo_usedRule_mem (text sender : String) :
    ∀ (rules : List SmsParserRule) (q : SmsParserRule),
      (tryRulesGo text sender rules).usedRule = some q → q ∈ rules := by
  intro rules
  induction rules with
  | nil => intro q h; simp [tryRulesGo, noMatchResult] at h
  | cons r rest ih =>
      intro q h
      rw [tryRulesGo_cons] at h
      by_cases hr : ruleAttemptSucceeds text sender r = true
      · rw [if_pos hr] at h
        simp only [Option.some.injEq] at h
        exact h ▸ List.mem_cons_self r rest
      · rw [if_neg hr] at h
        exact List.mem_cons_of_mem r (ih q h)

theorem tryRules_usedRule_mem (text sender : String) (rules : List SmsParserRule)
    (q : SmsParserRule) (h : (tryRules text sender rules).usedRule = some q) : q ∈ rules := by
  unfold tryRules at h
  by_cases hg : globalSkip text rules = true
  · rw [if_pos hg] at h; simp [noMatchResult] at h
  · rw [if_neg hg] at h; exact tryRulesGo_usedRule_mem text sender rules q h

/-- When a rule wins, the reported amount is exactly its amount extraction. -/
theorem tryRulesGo_amount_of_usedRule (text sender : String) :
    ∀ (rules : List SmsParserRule) (q : SmsParserRule),
      (tryRulesGo text sender rules).usedRule = some q →
      (tryRulesGo text sender rules).amount = extractAmount text q.amountRegex.norm := by
  intro rules
  induction rules with
  | nil => intro q h; simp [tryRulesGo, noMatchResult] at h
  | cons r rest ih =>
      intro q h
      rw [tryRulesGo_cons] at h ⊢
      by_cases hr : ruleAttemptSucceeds text sender r = true
      · rw [if_pos hr] at h ⊢
        simp only [Option.some.injEq] at h
        rw [h]
      · rw [if_neg hr] at h ⊢
        exact ih q h

/-- A single per-pattern amount, when defined, is an absolute value. -/
theorem amountFromPattern_nonneg (text pattern : String) (v : ℚ)
    (h : amountFromPattern text pattern = some v) : 0 ≤ v := by
  unfold amountFromPattern at h
  split at h
  · exact absurd h (by simp)
  · split at h
    · exact absurd h (by simp)
    · split at h
      · exact absurd h (by simp)
      · split at h
        · exact absurd h (by simp)
        · rename_i w _
          simp only [Option.some.injEq] at h
          rw [← h]
          exact abs_nonneg w

/-- The amount loop only ever produces nonnegative values. -/
theorem extractAmount_nonneg (text : String) :
    ∀ (patterns : List String) (v : ℚ), extractAmount text patterns = some v → 0 ≤ v := by
  intro patterns
  induction patterns with
  | nil => intro v h; simp [extractAmount] at h
  | cons p ps ih =>
      intro v h
      rw [extractAmount, List.findSome?_cons] at h
      rcases hp : amountFromPattern text p with _ | w
      · rw [hp] at h
        exact ih v h
      · rw [hp] at h
        simp only [Option.some.injEq] at h
        exact h ▸ amountFromPattern_nonneg text p w hp

/-- If any rule of the group has a matching skip pattern, the whole group
pass returns the empty result. -/
theorem tryRules_of_skip (text sender : String) (rules : List SmsParserRule)
    (r : SmsParserRule) (hmem : r ∈ rules) (hskip : ruleSkipMatches text r = true) :
    tryRules text sender rules = noMatchResult := by
  unfold tryRules
  have hg : globalSkip text rules = true := by
    unfold globalSkip
    exact List.any_eq_true.mpr ⟨r, hmem, hskip⟩
  rw [if_pos hg]

/-! ### Structural lemmas about the scan loop -/

theorem scanLoop_append (step : SmsMessage → List Nat → Except String (Option Transaction × List Nat))
    (ms1 ms2 : List SmsMessage) (st : LoopState) :
    scanLoop step (ms1 ++ ms2) st = scanLoop step ms2 (scanLoop step ms1 st) := by
  induction ms1 generalizing st with
  | nil => simp [scanLoop]
  | cons m ms ih =>
      show scanLoop step (m :: (ms ++ ms2)) st = _
      rw [scanLoop, scanLoop]
      rcases h : step m st.rng with e | ⟨_ | t, rng1⟩ <;> exact ih _

/-! ### Claim C1 -/

/-- C1: "The Identity Generator is deterministic: for every fixed input
tuple (date, amount, merchantName, sender, body), every call to
generateDeterministicTransactionId returns the same identifier, on repeated
calls and across process restarts."  This FAILS on the version the scan
pipeline uses (`processor/transaction-creator.ts`): the function returns a
fresh `uuidv4()` and ignores every field, as the first conjunct shows for
all inputs; the second conjunct exhibits one fixed tuple on which two calls
(two positions of the random stream) return different identifiers. -/
theorem C1_identity_generator_is_random :
    (∀ (date : Int) (amount : ℚ) (merchantName : String) (sender body : Option String)
        (rng : List Nat),
        generateDeterministicTransactionId date amount merchantName sender body rng = uuidv4 rng) ∧
    (generateDeterministicTransactionId 0 500 "COFFEE SHOP" (some "VISA-BANK")
        (some "Rs.500.00 spent at COFFEE SHOP") (List.replicate 16 0)).1 ≠
      (generateDeterministicTransactionId 0 500 "COFFEE SHOP" (some "VISA-BANK")
        (some "Rs.500.00 spent at COFFEE SHOP") (1 :: List.replicate 15 0)).1 :=
  ⟨fun _ _ _ _ _ _ => rfl, by decide⟩

/-! ### Claim C2 -/

/-- Enabled expense rule matching the C2 message. -/
def c2Rule : SmsParserRule :=
  { name := "visa-debit", enabled := true, paymentBank := "VISA Bank", priority := 10,
    transactionType := .expense, senderMatch := .str "VISA",
    amountRegex := .str "Rs\\.([0-9.]+)" }

/-- The bridge payload entry scanned twice in one batch for C2. -/
def c2Msg : BridgeMsg :=
  { address := some "VISA-BANK", body := some "Rs.250.00 debited for COFFEE SHOP", date := 1000 }

/-- C2: "when two messages with identical {date, amount, merchantName,
sender, body} are processed ... exactly one transaction is accepted; the
second is detected as a duplicate and counted as skipped."  This FAILS on
the code: ids are fresh random UUIDs and the duplicate check only scans the
persisted store (which the loop never updates), so scanning the identical
message twice in one batch accepts both and skips neither. -/
theorem C2_identical_batch_messages_both_accepted :
    (scanSms none none true (fun _ _ => some [c2Msg, c2Msg]) 0 [c2Rule] []
        (fun _ => {}) (List.range 32)).transactions.length = 2 ∧
    (scanSms none none true (fun _ _ => some [c2Msg, c2Msg]) 0 [c2Rule] []
        (fun _ => {}) (List.range 32)).skippedCount = 0 ∧
    (scanSms none none true (fun _ _ => some [c2Msg, c2Msg]) 0 [c2Rule] []
        (fun _ => {}) (List.range 32)).failure = none := by
  refine ⟨?_, ?_, ?_⟩ <;> decide

/-! ### Claim C3 -/

/-- The first successful attempt in input-list order wins, whatever the
priorities say. -/
theorem tryRulesGo_first_success (text sender : String) :
    ∀ (pre post : List SmsParserRule) (r : SmsParserRule),
      ruleAttemptSucceeds text sender r = true →
      (∀ q ∈ pre, ruleAttemptSucceeds text sender q = false) →
      (tryRulesGo text sender (pre ++ r :: post)).usedRule = some r := by
  intro pre
  induction pre with
  | nil =>
      intro post r hr _
      rw [List.nil_append, tryRulesGo_cons, if_pos hr]
  | cons q qs ih =>
      intro post r hr hpre
      rw [List.cons_append, tryRulesGo_cons, if_neg]
      · exact ih post r hr (fun x hx => hpre x (List.mem_cons_of_mem q hx))
      · simp [hpre q (List.mem_cons_self q qs)]

/-- Lower-priority rule placed earlier in the list; it matches the C3
message. -/
def c3LowRule : SmsParserRule :=
  { name := "low", enabled := true, paymentBank := "AXIS", priority := 5,
    transactionType := .expense, senderMatch := .str "AXIS",
    amountRegex := .str "paid ([0-9]+)" }

/-- Higher-priority rule placed later in the list; it also matches the C3
message. -/
def c3HighRule : SmsParserRule :=
  { name := "high", enabled := true, paymentBank := "AXIS", priority := 10,
    transactionType := .expense, senderMatch := .str "AXIS",
    amountRegex := .str "paid ([0-9]+)" }

/-- C3 counterexample: "if R1 has strictly higher priority than R2 then the
engine's returned usedRule is R1" is FALSE on the code.  Both rules are
enabled, in the same group, and both match the message, the later one with
strictly higher priority, yet the engine returns the earlier, lower-priority
rule: `tryRules` never consults `priority`. -/
theorem C3_counterexample_priority_ignored :
    (tryRules "paid 75 to STORE" "AXISBANK" [c3LowRule, c3HighRule]).usedRule = some c3LowRule ∧
    c3LowRule.priority < c3HighRule.priority ∧
    c3LowRule.enabled = true ∧ c3HighRule.enabled = true ∧
    ruleAttemptSucceeds "paid 75 to STORE" "AXISBANK" c3LowRule = true ∧
    ruleAttemptSucceeds "paid 75 to STORE" "AXISBANK" c3HighRule = true := by
  refine ⟨?_, ?_, ?_, ?_, ?_, ?_⟩ <;> decide

/-- C3 amended: within a transaction-type group the engine evaluates rules
in input-list order, not in priority order: for every message, the returned
usedRule is the first rule of the list (in input order) whose
enabled/sender/skip/amount checks all succeed, provided no rule of the
group carries a matching global skip pattern.  (The priority field is never
consulted by `extractExpenseFromText`/`tryRules`; priority sorting exists
only in the separate rule-test helpers, which the scanner does not use.) -/
theorem C3_amended_input_order (text sender : String) (pre post : List SmsParserRule)
    (r : SmsParserRule) (hglob : globalSkip text (pre ++ r :: post) = false)
    (hr : ruleAttemptSucceeds text sender r = true)
    (hpre : ∀ q ∈ pre, ruleAttemptSucceeds text sender q = false) :
    (tryRules text sender (pre ++ r :: post)).usedRule = some r := by
  unfold tryRules
  rw [hglob]
  exact tryRulesGo_first_success text sender pre post r hr hpre

/-- Witness for C3: a concrete three-rule list where the second rule is the
first succeeding one and is returned. -/
theorem C3_amended_input_order_witness :
    (globalSkip "paid 75 to STORE" ([{ c3LowRule with senderMatch := .str "HDFC" }] ++
        c3HighRule :: [c3LowRule]) = false) ∧
    (ruleAttemptSucceeds "paid 75 to STORE" "AXISBANK" c3HighRule = true) ∧
    (tryRules "paid 75 to STORE" "AXISBANK"
        ([{ c3LowRule with senderMatch := .str "HDFC" }] ++ c3HighRule :: [c3LowRule])).usedRule =
      some c3HighRule :=
  ⟨by decide, by decide,
    C3_amended_input_order "paid 75 to STORE" "AXISBANK"
      [{ c3LowRule with senderMatch := .str "HDFC" }] [c3LowRule] c3HighRule
      (by decide) (by decide)
      (by intro q hq; simp only [List.mem_singleton] at hq; rw [hq]; decide)⟩

/-! ### Claim C4 -/

/-- Payload entry for the C4 runs. -/
def c4Msg : BridgeMsg :=
  { address := some "VISA-BANK", body := some "Rs.40.00 debited", date := 7 }

/-- An all-disabled rule list has zero enabled rules. -/
def c4DisabledRule : SmsParserRule :=
  { name := "off", enabled := false, paymentBank := "VISA Bank", priority := 1,
    transactionType := .expense, senderMatch := .str "VISA",
    amountRegex := .str "Rs\\.([0-9.]+)" }

/-- C4 counterexample: the claim is FALSE on the code twice over.  With an
empty rule list the scan does fail, but the bridge has already been queried
(messages are loaded before the rules check), and with a nonempty list of
disabled rules — zero *enabled* rules — the scan does not fail at all: the
check is `rules.length === 0` on the full list. -/
theorem C4_counterexample_rules_check :
    ((scanSms none none true (fun _ _ => some [c4Msg]) 5 [] [] (fun _ => {}) []).queried =
        some (5 - 30 * msPerDay, 5)) ∧
    ((scanSms none none true (fun _ _ => some [c4Msg]) 5 [] [] (fun _ => {}) []).failure =
        some ScanFailure.noRules) ∧
    ((scanSms none none true (fun _ _ => some [c4Msg]) 0 [c4DisabledRule] []
        (fun _ => {}) []).failure = none) ∧
    c4DisabledRule.enabled = false := by
  refine ⟨?_, ?_, ?_, ?_⟩ <;> decide

/-- C4 amended: only an *empty* rule list triggers the failure; it is
reported after the messages have been loaded (the bridge query is recorded),
and no transaction is produced.  (A nonempty all-disabled list proceeds to
extraction, where disabled rules simply never match, as the counterexample
shows.) -/
theorem C4_amended_empty_rules (m : BridgeMsg) (ms : List BridgeMsg) (now : Int)
    (store : List Transaction) (enrich : String → EnrichedData) (rng : List Nat)
    (fromDate toDate : Option Int) :
    scanSms fromDate toDate true (fun _ _ => some (m :: ms)) now [] store enrich rng =
      { transactions := [], processedCount := 0, skippedCount := 0,
        failure := some .noRules, queried := some (loadWindow now) } := by
  have hmsg : loadSmsFromDevice true (fun _ _ => some (m :: ms)) now =
      { messages := bridgeToSms m :: (ms.take 99).map bridgeToSms,
        queried := some (loadWindow now) } := rfl
  unfold scanSms
  rw [hmsg]
  rfl

/-! ### Claim C5 -/

/-- C5: a message matching any skip-condition pattern of any rule of the
group is skipped for the whole group — the group pass returns the empty
result — and in particular that rule can never be the engine's used rule,
whatever its other patterns would match. -/
theorem C5_skip_condition_suppresses_group (text sender : String)
    (rules : List SmsParserRule) (r : SmsParserRule)
    (hmem : r ∈ rules) (hskip : ruleSkipMatches text r = true) :
    tryRules text sender rules = noMatchResult ∧
    (extractExpenseFromText text sender rules).usedRule ≠ some r := by
  refine ⟨tryRules_of_skip text sender rules r hmem hskip, ?_⟩
  intro hEq
  simp only [extractExpenseFromText] at hEq
  have hno : ¬(amountTruthy noMatchResult.amount = true) := by
    simp [noMatchResult, amountTruthy]
  rcases hT : r.transactionType with _ | _
  · -- r is an expense rule: the expense pass is emptied by the skip
    have hmemE : r ∈ rules.filter (fun x => x.transactionType = TxType.expense) :=
      List.mem_filter.mpr ⟨hmem, by simp [hT]⟩
    have hE := tryRules_of_skip text sender _ r hmemE hskip
    rw [hE, if_neg hno] at hEq
    by_cases hI : amountTruthy (tryRules text sender
        (rules.filter (fun x => x.transactionType = TxType.income))).amount = true
    · rw [if_pos hI] at hEq
      have hmemI := tryRules_usedRule_mem text sender _ r hEq
      have h2 := (List.mem_filter.mp hmemI).2
      simp [hT] at h2
    · rw [if_neg hI] at hEq
      simp at hEq
  · -- r is an income rule
    by_cases hX : amountTruthy (tryRules text sender
        (rules.filter (fun x => x.transactionType = TxType.expense))).amount = true
    · rw [if_pos hX] at hEq
      have hmemX := tryRules_usedRule_mem text sender _ r hEq
      have h2 := (List.mem_filter.mp hmemX).2
      simp [hT] at h2
    · rw [if_neg hX] at hEq
      have hmemI : r ∈ rules.filter (fun x => x.transactionType = TxType.income) :=
        List.mem_filter.mpr ⟨hmem, by simp [hT]⟩
      have hI := tryRules_of_skip text sender _ r hmemI hskip
      rw [hI, if_neg hno] at hEq
      simp at hEq

/-- Rule whose sender and amount patterns match the C5 message but whose
skip condition also matches it. -/
def c5Rule : SmsParserRule :=
  { name := "skip", enabled := true, paymentBank := "B", priority := 1,
    transactionType := .expense, senderMatch := .str "VISA",
    amountRegex := .str "paid ([0-9]+)", skipCondition := some (.str "OTP") }

/-- Witness for C5: the group pass is empty and the engine result does not
use the rule, although sender and amount would match. -/
theorem C5_skip_condition_suppresses_group_witness :
    (c5Rule ∈ [c5Rule]) ∧
    ruleSkipMatches "paid 99 with OTP 1234" c5Rule = true ∧
    tryRules "paid 99 with OTP 1234" "VISA-BANK" [c5Rule] = noMatchResult ∧
    (extractExpenseFromText "paid 99 with OTP 1234" "VISA-BANK" [c5Rule]).usedRule ≠
      some c5Rule :=
  ⟨List.mem_singleton.mpr rfl, by decide,
    (C5_skip_condition_suppresses_group "paid 99 with OTP 1234" "VISA-BANK" [c5Rule] c5Rule
      (List.mem_singleton.mpr rfl) (by decide)).1,
    (C5_skip_condition_suppresses_group "paid 99 with OTP 1234" "VISA-BANK" [c5Rule] c5Rule
      (List.mem_singleton.mpr rfl) (by decide)).2⟩

/-! ### Claim C6 -/

/-- Rule with the invalid pattern the claim names. -/
def c6InvalidRule : SmsParserRule :=
  { name := "invalid", enabled := true, paymentBank := "B", priority := 10,
    transactionType := .expense, senderMatch := .str "VISA",
    amountRegex := .str "([0-9]+" }

/-- Valid rule behind the invalid one. -/
def c6ValidRule : SmsParserRule :=
  { name := "valid", enabled := true, paymentBank := "B", priority := 1,
    transactionType := .expense, senderMatch := .str "VISA",
    amountRegex := .str "([0-9]+)" }

/-- C6: the per-message `try`/`catch` of the scan loop absorbs an exception
from any one message into the skip count and continues with the rest of the
batch (first conjunct, for every step function and batch decomposition);
and the invalid regex `([0-9]+` is a compile error that the rule loop
swallows, letting the later valid rule match the same message (remaining
conjuncts). -/
theorem C6_errors_absorbed_and_scan_continues :
    (∀ (step : SmsMessage → List Nat → Except String (Option Transaction × List Nat))
        (pre post : List SmsMessage) (bad : SmsMessage) (st : LoopState) (e : String),
        step bad (scanLoop step pre st).rng = .error e →
        scanLoop step (pre ++ bad :: post) st =
          scanLoop step post
            { scanLoop step pre st with
                skippedCount := (scanLoop step pre st).skippedCount + 1 }) ∧
    newRegExp "([0-9]+" "i" = none ∧
    (extractExpenseFromText "paid 42 to SHOP" "VISA-CARD"
        [c6InvalidRule, c6ValidRule]).usedRule = some c6ValidRule ∧
    (extractExpenseFromText "paid 42 to SHOP" "VISA-CARD"
        [c6InvalidRule, c6ValidRule]).amount = some (mkRat 42 1) := by
  refine ⟨?_, by decide, by decide, by decide⟩
  intro step pre post bad st e he
  rw [scanLoop_append]
  show scanLoop step (bad :: post) _ = _
  rw [scanLoop, he]

/-- Witness for C6: a concrete step function that throws on one message;
the loop skips it and processes the rest. -/
theorem C6_errors_absorbed_witness :
    ((fun (m : SmsMessage) (rng : List Nat) =>
        if m.body = "BOOM" then (Except.error "boom" : Except String (Option Transaction × List Nat))
        else .ok (none, rng))
      { address := "A", body := "BOOM", date := 0 }
      (scanLoop (fun m rng => if m.body = "BOOM" then .error "boom" else .ok (none, rng))
        [] { rng := [] }).rng = .error "boom") ∧
    scanLoop (fun m rng => if m.body = "BOOM" then .error "boom" else .ok (none, rng))
        ([] ++ { address := "A", body := "BOOM", date := 0 } ::
          [{ address := "B", body := "fine", date := 1 }]) { rng := [] } =
      scanLoop (fun m rng => if m.body = "BOOM" then .error "boom" else .ok (none, rng))
        [{ address := "B", body := "fine", date := 1 }]
        { scanLoop (fun m rng => if m.body = "BOOM" then .error "boom" else .ok (none, rng))
            [] { rng := [] } with
          skippedCount := (scanLoop (fun m rng => if m.body = "BOOM" then .error "boom"
            else .ok (none, rng)) [] { rng := [] }).skippedCount + 1 } :=
  ⟨rfl,
    C6_errors_absorbed_and_scan_continues.1
      (fun m rng => if m.body = "BOOM" then .error "boom" else .ok (none, rng))
      [] [{ address := "B", body := "fine", date := 1 }]
      { address := "A", body := "BOOM", date := 0 } { rng := [] } "boom" rfl⟩

/-! ### Claim C7 -/

theorem loadSmsFromDevice_queried (b : Int → Int → Option (List BridgeMsg)) (now : Int)
    (limit : Nat) : (loadSmsFromDevice true b now limit).queried = some (loadWindow now) := by
  show (match b (loadWindow now).1 (loadWindow now).2 with
    | none => ({ messages := [], queried := some (loadWindow now) } : LoadResult)
    | some arr =>
        { messages := (arr.take limit).map bridgeToSms,
          queried := some (loadWindow now) }).queried = some (loadWindow now)
  rcases b (loadWindow now).1 (loadWindow now).2 with _ | arr <;> rfl

/-- C7: "the message loader queries the external bridge with exactly that
[caller-requested] window" is FALSE on the code; the bridge is always
queried with the fixed window from thirty days before the clock to the
clock, whatever `fromDate`/`toDate` the caller passed (first conjunct, for
all requests), and a concrete requested January 2024 window differs from
the queried one (second conjunct).  Only the second half of the claim
holds: an empty payload yields the no-messages failure (third conjunct). -/
theorem C7_window_ignored_empty_fails :
    (∀ (fromDate toDate : Option Int) (b : Int → Int → Option (List BridgeMsg)) (now : Int)
        (rules : List SmsParserRule) (store : List Transaction)
        (enrich : String → EnrichedData) (rng : List Nat),
        (scanSms fromDate toDate true b now rules store enrich rng).queried =
          some (loadWindow now)) ∧
    loadWindow 1717200000000 ≠ (1704067200000, 1706745600000) ∧
    (∀ (fromDate toDate : Option Int) (now : Int) (rules : List SmsParserRule)
        (store : List Transaction) (enrich : String → EnrichedData) (rng : List Nat),
        (scanSms fromDate toDate true (fun _ _ => some []) now rules store enrich rng).failure =
          some .noMessages) := by
  refine ⟨?_, by decide, ?_⟩
  · intro fromDate toDate b now rules store enrich rng
    unfold scanSms
    dsimp only
    have hq := loadSmsFromDevice_queried b now 100
    split
    · exact hq
    · split
      · exact hq
      · exact hq
  · intro fromDate toDate now rules store enrich rng
    rfl

/-! ### Claim C8 -/

/-- Expense rule whose amount pattern captures a negative figure. -/
def c8Rule : SmsParserRule :=
  { name := "neg", enabled := true, paymentBank := "HDFC", priority := 3,
    transactionType := .expense, senderMatch := .str "HDFC",
    amountRegex := .str "Sent (-[0-9.,]+)" }

/-- C8: whenever a rule wins, the reported amount is its amount extraction —
the absolute value of the first capture that parses — and hence nonnegative
(first conjunct); a captured `-500.00` yields `500`, commas are stripped
(`1,234.50` yields `2469/2`), and the transaction type of the negative
capture comes from the matching rule's group, `expense`, not from the
textual sign (remaining conjuncts). -/
theorem C8_amount_is_absolute_value :
    (∀ (text sender : String) (rules : List SmsParserRule) (r : SmsParserRule) (a : ℚ),
        (tryRules text sender rules).usedRule = some r →
        (tryRules text sender rules).amount = some a →
        extractAmount text r.amountRegex.norm = some a ∧ 0 ≤ a) ∧
    amountFromPattern "Sent -500.00 to BOOKSHOP" "Sent (-[0-9.,]+)" = some 500 ∧
    amountFromPattern "Paid Rs 1,234.50 at STORE" "Rs ([0-9.,]+)" = some (mkRat 2469 2) ∧
    (extractExpenseFromText "Sent -500.00 to BOOKSHOP" "HDFC-BK" [c8Rule]).amount = some 500 ∧
    (extractExpenseFromText "Sent -500.00 to BOOKSHOP" "HDFC-BK" [c8Rule]).transactionType =
      some TxType.expense := by
  refine ⟨?_, by decide, by decide, by decide, by decide⟩
  intro text sender rules r a hused hamt
  unfold tryRules at hused hamt
  by_cases hg : globalSkip text rules = true
  · rw [if_pos hg] at hused
    exact absurd hused (by simp [noMatchResult])
  · rw [if_neg hg] at hused hamt
    have h1 := tryRulesGo_amount_of_usedRule text sender rules r hused
    refine ⟨h1 ▸ hamt, ?_⟩
    exact extractAmount_nonneg text r.amountRegex.norm a (h1 ▸ hamt)

/-- Witness for C8: the general conjunct applied to the concrete negative
capture. -/
theorem C8_amount_is_absolute_value_witness :
    ((tryRules "Sent -500.00 to BOOKSHOP" "HDFC-BK" [c8Rule]).usedRule = some c8Rule) ∧
    ((tryRules "Sent -500.00 to BOOKSHOP" "HDFC-BK" [c8Rule]).amount = some 500) ∧
    (extractAmount "Sent -500.00 to BOOKSHOP" c8Rule.amountRegex.norm = some 500 ∧
      (0 : ℚ) ≤ 500) :=
  ⟨by decide, by decide,
    C8_amount_is_absolute_value.1 "Sent -500.00 to BOOKSHOP" "HDFC-BK" [c8Rule] c8Rule 500
      (by decide) (by decide)⟩

/-! ### Claim C9 -/

/-- C9: when the expense group produces a truthy amount, the engine returns
exactly the expense-group result tagged `expense` (first conjunct); the
engine only ever reports `income` when the expense group produced no truthy
amount (second conjunct). -/
theorem C9_expense_group_precedence (text sender : String) (rules : List SmsParserRule) :
    (amountTruthy (tryRules text sender
        (rules.filter (fun x => x.transactionType = TxType.expense))).amount = true →
      extractExpenseFromText text sender rules =
        { amount := (tryRules text sender
              (rules.filter (fun x => x.transactionType = TxType.expense))).amount,
          merchantName := (tryRules text sender
              (rules.filter (fun x => x.transactionType = TxType.expense))).merchantName,
          usedRule := (tryRules text sender
              (rules.filter (fun x => x.transactionType = TxType.expense))).usedRule,
          transactionType := some TxType.expense }) ∧
    ((extractExpenseFromText text sender rules).transactionType = some TxType.income →
      amountTruthy (tryRules text sender
        (rules.filter (fun x => x.transactionType = TxType.expense))).amount = false) := by
  constructor
  · intro h
    simp only [extractExpenseFromText]
    rw [if_pos h]
  · intro h
    by_cases hX : amountTruthy (tryRules text sender
        (rules.filter (fun x => x.transactionType = TxType.expense))).amount = true
    · exfalso
      simp only [extractExpenseFromText] at h
      rw [if_pos hX] at h
      simp at h
    · simpa using hX

/-- Rules for the C9 witness: an expense rule and an income rule that both
match the same message. -/
def c9ExpenseRule : SmsParserRule :=
  { name := "exp", enabled := true, paymentBank := "B", priority := 1,
    transactionType := .expense, senderMatch := .str "BANK",
    amountRegex := .str "amount ([0-9]+)" }

def c9IncomeRule : SmsParserRule :=
  { name := "inc", enabled := true, paymentBank := "B", priority := 9,
    transactionType := .income, senderMatch := .str "BANK",
    amountRegex := .str "amount ([0-9]+)" }

/-- Witness for C9: both groups could match; the result is the expense one. -/
theorem C9_expense_group_precedence_witness :
    (amountTruthy (tryRules "amount 33 credited" "MYBANK"
        ([c9ExpenseRule, c9IncomeRule].filter
          (fun x => x.transactionType = TxType.expense))).amount = true) ∧
    (amountTruthy (tryRules "amount 33 credited" "MYBANK"
        ([c9ExpenseRule, c9IncomeRule].filter
          (fun x => x.transactionType = TxType.income))).amount = true) ∧
    extractExpenseFromText "amount 33 credited" "MYBANK" [c9ExpenseRule, c9IncomeRule] =
      { amount := (tryRules "amount 33 credited" "MYBANK"
            ([c9ExpenseRule, c9IncomeRule].filter
              (fun x => x.transactionType = TxType.expense))).amount,
        merchantName := (tryRules "amount 33 credited" "MYBANK"
            ([c9ExpenseRule, c9IncomeRule].filter
              (fun x => x.transactionType = TxType.expense))).merchantName,
        usedRule := (tryRules "amount 33 credited" "MYBANK"
            ([c9ExpenseRule, c9IncomeRule].filter
              (fun x => x.transactionType = TxType.expense))).usedRule,
        transactionType := some TxType.expense } :=
  ⟨by decide, by decide,
    (C9_expense_group_precedence "amount 33 credited" "MYBANK"
      [c9ExpenseRule, c9IncomeRule]).1 (by decide)⟩

/-! ### Claim C10 -/

/-- C10: the loader truncates every parsed payload to its `limit` parameter
before mapping (first conjunct), and with the default limit — the one the
scan uses — it never returns more than 100 messages, for every bridge
(second conjunct). -/
theorem C10_loader_caps_messages :
    (∀ (arr : List BridgeMsg) (now : Int) (limit : Nat),
        (loadSmsFromDevice true (fun _ _ => some arr) now limit).messages =
          (arr.take limit).map bridgeToSms) ∧
    (∀ (b : Int → Int → Option (List BridgeMsg)) (now : Int),
        (loadSmsFromDevice true b now).messages.length ≤ 100) := by
  constructor
  · intro arr now limit
    rfl
  · intro b now
    unfold loadSmsFromDevice
    dsimp only
    split
    · simp
    · split
      · simp
      · simp [List.length_take]

end Cursor
